import Mathlib

/-!
Verification development for the AzureMongoSearchOnPrem backend
(`src/backend/main.py`), a FastAPI service offering document ingestion,
lexical search, vector (semantic) search, a document listing, and a RAG
chat endpoint over MongoDB.

The Python source is shallowly embedded below.  External collaborators
(the embedding model, the LLM, MongoDB's native search execution) are
passed in as function parameters; the decision logic of the endpoints
(validation, capability probing, query construction, response assembly)
is translated directly from the source.  Strings are manipulated through
their character lists so that all definitions evaluate by kernel
reduction on concrete inputs.
-/

namespace AMS

/-- Embedding vectors (`vector<float,384>` in the source) are modelled as
lists of rationals; no claim depends on floating-point rounding. -/
abbrev Vec := List Rat

/-- Python `str.strip()`: drop whitespace from both ends. -/
def pyStrip (s : String) : String :=
  ⟨((s.data.dropWhile Char.isWhitespace).reverse.dropWhile Char.isWhitespace).reverse⟩

/-- Python `str.join` on a list of strings (`sep.join(parts)`). -/
def joinSep (sep : String) : List String → String
  | [] => ""
  | [s] => s
  | s :: rest => s ++ sep ++ joinSep sep rest

/-- Does the character list `hay` start with `needle`? -/
def startsWithL : List Char → List Char → Bool
  | [], _ => true
  | _ :: _, [] => false
  | n :: ns, h :: hs => n == h && startsWithL ns hs

/-- Python `needle in hay` substring test over character lists. -/
def hasSubL (needle : List Char) : List Char → Bool
  | [] => needle.isEmpty
  | h :: hs => startsWithL needle (h :: hs) || hasSubL needle hs

/-- Python `needle in hay` on strings. -/
def containsSub (hay needle : String) : Bool :=
  hasSubL needle.data hay.data

/-- Lower-case a character (ASCII, as relevant to the source's use). -/
def charLower (c : Char) : Char :=
  if 'A' ≤ c && c ≤ 'Z' then Char.ofNat (c.toNat + 32) else c

/-- Python `str.lower()` (ASCII portion). -/
def pyLower (s : String) : String := ⟨s.data.map charLower⟩

/-- Split a character list at every occurrence of `sep` (Python
`str.split(sep)` semantics: empty pieces are kept). -/
def splitCharList (sep : Char) : List Char → List (List Char)
  | [] => [[]]
  | c :: cs =>
    if c = sep then [] :: splitCharList sep cs
    else
      match splitCharList sep cs with
      | [] => [[c]]
      | h :: t => (c :: h) :: t

/-- Python `s.split(',')` on strings. -/
def pySplitComma (s : String) : List String :=
  (splitCharList ',' s.data).map (fun l => ⟨l⟩)

/-- A stored MongoDB document (`doc_dict` as held in the `documents`
collection): `_id` is modelled as a `Nat` that increases with insertion
order (MongoDB ObjectIds embed the insertion timestamp, so `_id` order is
insertion order, and their fixed-width string forms sort identically). -/
structure StoredDoc where
  id : Nat
  title : String
  body : String
  tags : List String
  embedding : Option Vec
  deriving Repr, DecidableEq

/-- One entry of `documents.list_search_indexes()`. -/
structure SearchIndexInfo where
  name : String
  status : String
  deriving Repr, DecidableEq

/-- The observable behaviour of `documents.list_search_indexes()`:
either it returns a list of indexes or it raises with a message. -/
inductive ProbeEnv where
  | ok (idxs : List SearchIndexInfo)
  | err (msg : String)
  deriving Repr, DecidableEq

/-- `check_vector_index_exists` (main.py:261-278): scan the listed search
indexes for one named `vector_index` and return `(True, status)` if found
(its own comment: even if BUILDING, it exists); `(False, None)` if the
listing has no such index; on an exception, `(False, "SearchNotEnabled")`
when the message indicates search is not enabled, else `(False, None)`. -/
def check_vector_index_exists : ProbeEnv → Bool × Option String
  | .ok idxs =>
    match idxs.find? (fun i => i.name == "vector_index") with
    | some i => (true, some i.status)
    | none => (false, none)
  | .err msg =>
    if containsSub msg "SearchNotEnabled" || containsSub msg "31082" ||
        containsSub (pyLower msg) "not found" then
      (false, some "SearchNotEnabled")
    else
      (false, none)

/-- The document store: the collection contents in insertion order. -/
structure VectorStore where
  docs : List StoredDoc
  deriving Repr, DecidableEq

/-- The `$vectorSearch` stage of the aggregation pipelines built in
`semantic_search` (main.py:1076-1085) and `chat_with_documents`
(main.py:1557-1565): index name, `numCandidates` and `limit`. -/
structure VSQuery where
  index : String
  numCandidates : Nat
  limit : Nat
  deriving Repr, DecidableEq

/-- Insert `x` into a list sorted descending by `key`, keeping the sort
stable when the whole input is folded right-to-left (`x`, the earlier
element, goes before existing entries with an equal key). -/
def insertDescBy {α β : Type} [LinearOrder β] (key : α → β) (x : α) :
    List α → List α
  | [] => [x]
  | y :: ys => if key y ≤ key x then x :: y :: ys else y :: insertDescBy key x ys

/-- Stable insertion sort, descending by `key`. -/
def sortDescBy {α β : Type} [LinearOrder β] (key : α → β) : List α → List α
  | [] => []
  | x :: xs => insertDescBy key x (sortDescBy key xs)

/-- Modelled from the spec: the external Document Store Adapter's native
`$vectorSearch` execution (MongoDB with mongot, out of scope of src/):
it scores every document that has an embedding with the native similarity
score, orders descending by that score, and returns the first `limit`
results.  The scoring function is a parameter because its internals
belong to the collaborator. -/
def mongoVectorSearch (score : Vec → Vec → Rat) (store : VectorStore)
    (qvec : Vec) (q : VSQuery) : List (StoredDoc × Rat) :=
  let cands := store.docs.filterMap (fun d => d.embedding.map (fun e => (d, score qvec e)))
  (sortDescBy (fun p => p.2) cands).take q.limit

/-- An HTTP error raised via FastAPI's `HTTPException`. -/
structure HTTPError where
  status : Nat
  detail : String
  deriving Repr, DecidableEq

/-- A raw number or a textual note inside a displayed query document
(the source mixes floats and note strings in `embedding_sample` and
`query_vector_sample`). -/
inductive ShownVal where
  | num (x : Rat)
  | note (s : String)
  deriving Repr, DecidableEq

/-- The `MongoDBOperation` telemetry record, restricted to the fields the
claims are about: the operation name, the `$vectorSearch` parameters of
the displayed pipeline (when one is shown), the raw embedding values that
the displayed query exposes, and `documents_affected`. -/
structure MongoOpM where
  operation : String
  vsQuery : Option VSQuery
  vecShown : List ShownVal
  documents_affected : Nat
  deriving Repr, DecidableEq

/-- The `DocumentResponse` pydantic model (main.py:151-156): only the
display fields `id`, `title`, `body`, `tags` plus an optional attached
telemetry record.  It has no embedding field. -/
structure DocumentResponse where
  id : Nat
  title : String
  body : String
  tags : List String
  mongodb_operation : Option MongoOpM
  deriving Repr, DecidableEq

/-- The `mongodb_query` dict attached to a `SearchResponse`
(main.py:1148-1151 for the semantic endpoint): the displayed pipeline's
`$vectorSearch` parameters (when the query is a vector search) and the
raw embedding values its truncated `query_vector_sample` exposes. -/
structure MongoQueryM where
  vsQuery : Option VSQuery
  vecShown : List ShownVal
  deriving Repr, DecidableEq

/-- The `SearchResponse` pydantic model (main.py:158-166), restricted to
the claim-relevant fields.  `mongodb_query` is the displayed query dict;
for the semantic endpoint it carries the truncated `query_vector_sample`
a second time, in addition to the copy inside `mongodb_operation`. -/
structure SearchResponse where
  query : String
  results : List DocumentResponse
  total : Nat
  mongodb_query : Option MongoQueryM
  search_type : String
  mongodb_operation : Option MongoOpM
  deriving Repr, DecidableEq

/-- The `ChatRequest` pydantic model (main.py:168-171). -/
structure ChatRequest where
  question : String
  max_context_docs : Nat
  system_prompt : Option String
  deriving Repr, DecidableEq

/-- The `ChatResponse` pydantic model (main.py:173-178). -/
structure ChatResponse where
  question : String
  answer : String
  sources : List DocumentResponse
  model_used : String
  mongodb_operation : Option MongoOpM
  deriving Repr, DecidableEq

/-- How many calls a request issued to each collaborator: the embedding
model, the document store (index listing and queries), and the LLM. -/
structure CallCounts where
  embedCalls : Nat
  storeCalls : Nat
  llmCalls : Nat
  deriving Repr, DecidableEq

/-- Build a `DocumentResponse` from a stored document, as every endpoint
does: only `_id`, `title`, `body`, `tags` are copied. -/
def toDocResponse (d : StoredDoc) : DocumentResponse :=
  { id := d.id, title := d.title, body := d.body, tags := d.tags,
    mongodb_operation := none }

/-- How Python renders the probe status inside an f-string:
`None` for the absent value, the string itself otherwise. -/
def statusShown : Option String → String
  | none => "None"
  | some s => s

/-- The 503 detail of `semantic_search` (main.py:1045-1048), abridged to
the part before the remediation steps; the probe status is interpolated. -/
def semUnavailableDetail (st : Option String) : String :=
  "MongoDB Vector Search is not available. Vector index vector_index not found or not ready (" ++
    ("status: " ++ statusShown st) ++ ")"

/-- The 503 detail of `chat_with_documents` (main.py:1525-1528), abridged
the same way. -/
def chatUnavailableDetail (st : Option String) : String :=
  "MongoDB Vector Search is not available for RAG. Vector index vector_index not found or not ready (" ++
    ("status: " ++ statusShown st) ++ ")"

/-- The truncated vector display used by `semantic_search` and
`chat_with_documents`: the first 5 values plus a note. -/
def vecSample (v : Vec) : List ShownVal :=
  (v.take 5).map ShownVal.num ++
    [ShownVal.note ("... (remaining " ++ toString (v.length - 5) ++ " dimensions)")]

/-- `semantic_search` (`GET /search/semantic`, main.py:1029-1170):
reject a blank query with 400 before any collaborator call; embed the
query; probe the vector index and fail with 503 if it is unavailable;
otherwise run the native `$vectorSearch` with `numCandidates = limit*10`
and `limit`, and assemble the response with one telemetry record on the
envelope (result documents carry none).  There is no brute-force
fallback (source comment at main.py:1159: no Python fallback). -/
def semantic_search (embed : String → Vec) (score : Vec → Vec → Rat)
    (env : ProbeEnv) (store : VectorStore) (q : String) (limit : Nat) :
    Except HTTPError SearchResponse × CallCounts :=
  if pyStrip q = "" then
    (.error ⟨400, "Query parameter q is required"⟩, ⟨0, 0, 0⟩)
  else
    let query_embedding := embed q
    let probe := check_vector_index_exists env
    if !probe.1 then
      (.error ⟨503, semUnavailableDetail probe.2⟩, ⟨1, 1, 0⟩)
    else
      let pipe : VSQuery := ⟨"vector_index", limit * 10, limit⟩
      let found := mongoVectorSearch score store query_embedding pipe
      let top_results := found.map (fun p => toDocResponse p.1)
      let op : MongoOpM :=
        ⟨"aggregate", some pipe, vecSample query_embedding, top_results.length⟩
      (.ok { query := q, results := top_results, total := top_results.length,
             mongodb_query := some ⟨some pipe, vecSample query_embedding⟩,
             search_type := "vector", mongodb_operation := some op },
       ⟨1, 2, 0⟩)

/-- One labelled context block of the RAG prompt
(main.py:1609, f-string inside the loop). -/
def contextBlock (idx : Nat) (d : StoredDoc) : String :=
  "Document " ++ toString idx ++ " (Title: " ++ d.title ++ "):\n" ++ d.body ++ "\n"

/-- The RAG context string (main.py:1606-1617): blocks for each retrieved
document with 1-based ranks (`enumerate(..., 1)`), joined by a newline
(each block already ends with one, so blocks are separated by a single
blank line). -/
def buildContext (docs : List StoredDoc) : String :=
  joinSep "\n" ((docs.enumFrom 1).map (fun p => contextBlock p.1 p.2))

/-- `chat_with_documents` (`POST /chat`, main.py:1505-1661): reject a
blank question with 400; embed the question; probe the vector index and
fail with 503 if unavailable; retrieve with `numCandidates =
max_context_docs*10` and `limit = max_context_docs`; build the context;
then call the LLM unconditionally (there is no zero-document
short-circuit in the source) and assemble the response. -/
def chat_with_documents (embed : String → Vec) (score : Vec → Vec → Rat)
    (llm : String → String → Option String → String)
    (env : ProbeEnv) (store : VectorStore) (req : ChatRequest) :
    Except HTTPError ChatResponse × CallCounts :=
  if pyStrip req.question = "" then
    (.error ⟨400, "Question is required"⟩, ⟨0, 0, 0⟩)
  else
    let query_embedding := embed req.question
    let probe := check_vector_index_exists env
    if !probe.1 then
      (.error ⟨503, chatUnavailableDetail probe.2⟩, ⟨1, 1, 0⟩)
    else
      let pipe : VSQuery := ⟨"vector_index", req.max_context_docs * 10, req.max_context_docs⟩
      let top_docs_with_scores := mongoVectorSearch score store query_embedding pipe
      let top_docs := top_docs_with_scores.map Prod.fst
      let context := buildContext top_docs
      let sources := top_docs.map toDocResponse
      let answer := llm req.question context req.system_prompt
      let op : MongoOpM :=
        ⟨"aggregate", some pipe, vecSample query_embedding, top_docs.length⟩
      (.ok { question := req.question, answer := answer, sources := sources,
             model_used := "ollama: phi", mongodb_operation := some op },
       ⟨1, 2, 1⟩)

/-- Attach the find telemetry to the document at index 0 only
(main.py:1209-1212: only the first document gets `mongodb_operation`). -/
def markFirst (op : MongoOpM) (p : Nat × StoredDoc) : DocumentResponse :=
  if p.1 = 0 then { toDocResponse p.2 with mongodb_operation := some op }
  else toDocResponse p.2

/-- `get_documents` (`GET /documents`, main.py:1172-1214): take the last
10 documents sorted by `_id` descending, and return bare
`DocumentResponse`s with the single telemetry record attached to the
first item (there is no envelope on this endpoint). -/
def get_documents (store : VectorStore) : List DocumentResponse :=
  let docs := (sortDescBy (fun d => d.id) store.docs).take 10
  let op : MongoOpM := ⟨"find", none, [], docs.length⟩
  (docs.enumFrom 0).map (markFirst op)

/-- `search_documents` (`GET /search`, main.py:1216-1301): reject a blank
query with 400 before any collaborator call; otherwise run the `$search`
aggregation (delegated to the store, `$limit 10` in the pipeline) and
assemble the envelope with one telemetry record (the `$text` fallback
branch differs only in telemetry metadata and is not claim-relevant). -/
def search_documents (lexSearch : String → List (StoredDoc × Rat)) (q : String) :
    Except HTTPError SearchResponse × CallCounts :=
  if pyStrip q = "" then
    (.error ⟨400, "Query parameter q is required"⟩, ⟨0, 0, 0⟩)
  else
    let results := ((lexSearch q).take 10).map (fun p => toDocResponse p.1)
    let op : MongoOpM := ⟨"aggregate", none, [], results.length⟩
    (.ok { query := q, results := results, total := results.length,
           mongodb_query := some ⟨none, []⟩,
           search_type := "full_text_search", mongodb_operation := some op },
     ⟨0, 1, 0⟩)

/-- The `Document` request body of `POST /documents` (main.py:138-141). -/
structure DocumentIn where
  title : String
  body : String
  tags : List String
  deriving Repr, DecidableEq

/-- `text_for_embedding` of `create_document` (main.py:721). -/
def embedTextOf (d : DocumentIn) : String :=
  d.title ++ " " ++ d.body ++ " " ++ joinSep " " d.tags

/-- `create_document` (`POST /documents`, main.py:714-759): embed the
concatenated text, store the document with its full embedding, and
return a `DocumentResponse` whose telemetry shows only the first 5
embedding values plus a note (`embedding_sample`, main.py:726). -/
def create_document (embed : String → Vec) (newId : Nat) (document : DocumentIn) :
    DocumentResponse × StoredDoc :=
  let emb := embed (embedTextOf document)
  let stored : StoredDoc :=
    ⟨newId, document.title, document.body, document.tags, some emb⟩
  let sample :=
    (emb.take 5).map ShownVal.num ++
      [ShownVal.note ("... (" ++ toString emb.length ++ " total dimensions)")]
  let op : MongoOpM := ⟨"insertOne", none, sample, 1⟩
  ({ id := newId, title := document.title, body := document.body,
     tags := document.tags, mongodb_operation := some op }, stored)

/-- Tag parsing of `create_document_from_audio` (main.py:855):
`[tag.strip() for tag in tags.split(',') if tag.strip()]`. -/
def parseTagsCsv (s : String) : List String :=
  ((pySplitComma s).map pyStrip).filter (fun t => t ≠ "")

/-- The stored tag list of `create_document_from_audio` (main.py:853-857):
the parsed caller tags (empty when the caller passed nothing) with
`language:{detected}` and `audio-transcription` appended. -/
def audioTagsList (tags : Option String) (detected : String) : List String :=
  (match tags with
   | some s => if s = "" then [] else parseTagsCsv s
   | none => []) ++
  ["language:" ++ detected, "audio-transcription"]

/-- The claim-relevant fields of the document stored by
`create_document_from_audio` (main.py:899-908). -/
structure AudioDoc where
  title : String
  body : String
  tags : List String
  source : String
  detected_language : String
  embedding : Vec
  deriving Repr, DecidableEq

/-- `create_document_from_audio` (`POST /documents/from-audio`,
main.py:783-990), after transcription: default the title to the first 50
characters of the transcript (plus an ellipsis when truncated) when the
caller gave none, build the tag list, embed, and store. -/
def create_document_from_audio (embed : String → Vec)
    (transcribed detected : String) (title tags : Option String) : AudioDoc :=
  let defTitle : String :=
    ⟨transcribed.data.take 50⟩ ++ (if transcribed.data.length > 50 then "..." else "")
  let t := match title with
    | some s => if s = "" then defTitle else s
    | none => defTitle
  let tl := audioTagsList tags detected
  { title := t, body := transcribed, tags := tl, source := "audio",
    detected_language := detected,
    embedding := embed (t ++ " " ++ transcribed ++ " " ++ joinSep " " tl) }

/-- The `DocumentResponse` returned by `POST /documents/from-audio`
(main.py:982-988): the stored document's display fields with the
insertOne telemetry attached.  Its displayed `insert_query` renders the
embedding as a size note string (main.py:922), exposing zero raw
embedding values. -/
def create_document_from_audio_response (embed : String → Vec) (newId : Nat)
    (transcribed detected : String) (title tags : Option String) : DocumentResponse :=
  let stored := create_document_from_audio embed transcribed detected title tags
  let op : MongoOpM :=
    ⟨"insertOne", none,
     [ShownVal.note ("[" ++ toString stored.embedding.length ++ "-dimensional vector]")], 1⟩
  { id := newId, title := stored.title, body := stored.body, tags := stored.tags,
    mongodb_operation := some op }

/-! ## Accessors over endpoint results, used to state the claims -/

/-- The HTTP status when the call failed, `none` on success. -/
def respStatus {α : Type} : Except HTTPError α × CallCounts → Option Nat
  | (.error e, _) => some e.status
  | (.ok _, _) => none

/-- The error detail when the call failed, `none` on success. -/
def respDetail {α : Type} : Except HTTPError α × CallCounts → Option String
  | (.error e, _) => some e.detail
  | (.ok _, _) => none

/-- The `total` field of a successful search response. -/
def respTotal : Except HTTPError SearchResponse × CallCounts → Option Nat
  | (.ok r, _) => some r.total
  | (.error _, _) => none

/-- The sources list of a successful chat response. -/
def chatSources : Except HTTPError ChatResponse × CallCounts → Option (List DocumentResponse)
  | (.ok r, _) => some r.sources
  | (.error _, _) => none

/-- The answer text of a successful chat response. -/
def chatAnswer : Except HTTPError ChatResponse × CallCounts → Option String
  | (.ok r, _) => some r.answer
  | (.error _, _) => none

/-- The `$vectorSearch` parameters recorded in the telemetry of a
successful search response. -/
def searchOpQuery : Except HTTPError SearchResponse × CallCounts → Option VSQuery
  | (.ok r, _) => r.mongodb_operation.bind (fun op => op.vsQuery)
  | (.error _, _) => none

/-- The `$vectorSearch` parameters recorded in the telemetry of a
successful chat response. -/
def chatOpQuery : Except HTTPError ChatResponse × CallCounts → Option VSQuery
  | (.ok r, _) => r.mongodb_operation.bind (fun op => op.vsQuery)
  | (.error _, _) => none

/-- The raw numeric values inside a displayed query document. -/
def rawNums (l : List ShownVal) : List Rat :=
  l.filterMap (fun v => match v with | .num x => some x | .note _ => none)

/-- Raw embedding values exposed by one optional telemetry record. -/
def opShown : Option MongoOpM → List Rat
  | none => []
  | some op => rawNums op.vecShown

/-- Raw embedding values exposed by one optional displayed-query dict. -/
def queryShown : Option MongoQueryM → List Rat
  | none => []
  | some qd => rawNums qd.vecShown

/-- Raw embedding values exposed by one `DocumentResponse`. -/
def docRespShown (r : DocumentResponse) : List Rat :=
  opShown r.mongodb_operation

/-- Raw embedding values exposed by a list of `DocumentResponse`s. -/
def docsShown : List DocumentResponse → List Rat
  | [] => []
  | r :: rs => docRespShown r ++ docsShown rs

/-- Every raw embedding value anywhere in a search result: the displayed
query dict, the envelope telemetry, and every item. -/
def searchShown : Except HTTPError SearchResponse × CallCounts → List Rat
  | (.error _, _) => []
  | (.ok r, _) =>
    queryShown r.mongodb_query ++ opShown r.mongodb_operation ++ docsShown r.results

/-- Every raw embedding value anywhere in a chat result. -/
def chatShown : Except HTTPError ChatResponse × CallCounts → List Rat
  | (.error _, _) => []
  | (.ok r, _) => opShown r.mongodb_operation ++ docsShown r.sources

/-! ## Spec-side definitions (from the spec's words, for comparison) -/

/-- The spec's labelled context block,
`"Document {rank} (Title: {title}):\n{body}\n"` (spec §4.2 step 4). -/
def specBlock (rank : Nat) (d : StoredDoc) : String :=
  "Document " ++ toString rank ++ " (Title: " ++ d.title ++ "):\n" ++ d.body ++ "\n"

/-- The spec's context string: the blocks for the ranked documents, with
1-based ranks in similarity order, separated by single blank lines (each
block ends with a newline, so one further newline separates consecutive
blocks by exactly one blank line). -/
def specContext : Nat → List StoredDoc → String
  | _, [] => ""
  | r, [d] => specBlock r d
  | r, d :: d2 :: ds => specBlock r d ++ "\n" ++ specContext (r + 1) (d2 :: ds)

/-- The ranked documents the RAG step retrieves for a question, as the
pipeline in `chat_with_documents` computes them. -/
def retrievedFor (embed : String → Vec) (score : Vec → Vec → Rat)
    (store : VectorStore) (question : String) (k : Nat) : List StoredDoc :=
  (mongoVectorSearch score store (embed question) ⟨"vector_index", k * 10, k⟩).map Prod.fst

/-! ## Concrete fixtures for witnesses and counterexamples -/

/-- A constant embedding gateway stand-in. -/
def constEmbed : String → Vec := fun _ => [1, 0]

/-- A constant native scoring stand-in. -/
def score0 : Vec → Vec → Rat := fun _ _ => 0

/-- An LLM stand-in with a recognizable constant output. -/
def llmStub : String → String → Option String → String := fun _ _ _ => "LLM OUTPUT"

/-- An LLM stand-in that returns the context it was given, making the
context passed to generation observable in the answer. -/
def llmEcho : String → String → Option String → String := fun _ c _ => c

/-- A probe environment where the vector index exists and is queryable. -/
def readyEnv : ProbeEnv := .ok [⟨"vector_index", "READY"⟩]

/-- A probe environment where the vector index exists but is building. -/
def buildingEnv : ProbeEnv := .ok [⟨"vector_index", "BUILDING"⟩]

/-- A probe environment where no vector index exists. -/
def absentEnv : ProbeEnv := .ok []

/-- An empty corpus. -/
def emptyStore : VectorStore := ⟨[]⟩

/-- A document with an embedding. -/
def docA : StoredDoc := ⟨1, "Doc A", "Body A", ["t1"], some [1, 0]⟩

/-- A second document with an embedding. -/
def docB : StoredDoc := ⟨2, "Doc B", "Body B", [], some [0, 1]⟩

/-- A document without an embedding. -/
def docC : StoredDoc := ⟨3, "Doc C", "Body C", [], none⟩

/-- A one-document corpus with an embedding. -/
def store1 : VectorStore := ⟨[docA]⟩

/-- A two-document corpus with embeddings. -/
def store2 : VectorStore := ⟨[docA, docB]⟩

/-- A corpus whose only document has no embedding. -/
def storeNoEmb : VectorStore := ⟨[docC]⟩

/-- A chat request as in the spec's short-circuit test
(`chat("anything", max_context_docs=5)`). -/
def req5 : ChatRequest := ⟨"anything", 5, none⟩

/-! ## Lemmas about the descending insertion sort -/

theorem mem_insertDescBy {α β : Type} [LinearOrder β] (key : α → β) (x : α)
    (l : List α) : ∀ z ∈ insertDescBy key x l, z = x ∨ z ∈ l := by
  induction l with
  | nil => intro z hz; simp [insertDescBy] at hz; exact Or.inl hz
  | cons y ys ih =>
    intro z hz
    simp only [insertDescBy] at hz
    by_cases hk : key y ≤ key x
    · rw [if_pos hk] at hz
      simp only [List.mem_cons] at hz
      rcases hz with h | h | h
      · exact Or.inl h
      · exact Or.inr (by simp [h])
      · exact Or.inr (by simp [h])
    · rw [if_neg hk] at hz
      simp only [List.mem_cons] at hz
      rcases hz with h | h
      · exact Or.inr (by simp [h])
      · rcases ih z h with h' | h'
        · exact Or.inl h'
        · exact Or.inr (by simp [h'])

theorem pairwise_insertDescBy {α β : Type} [LinearOrder β] (key : α → β) (x : α)
    (l : List α) (h : l.Pairwise (fun a b => key b ≤ key a)) :
    (insertDescBy key x l).Pairwise (fun a b => key b ≤ key a) := by
  induction l with
  | nil => simp [insertDescBy]
  | cons y ys ih =>
    rw [List.pairwise_cons] at h
    simp only [insertDescBy]
    by_cases hk : key y ≤ key x
    · rw [if_pos hk]
      refine List.pairwise_cons.mpr ⟨?_, List.pairwise_cons.mpr ⟨h.1, h.2⟩⟩
      intro z hz
      simp only [List.mem_cons] at hz
      rcases hz with h' | h'
      · rw [h']; exact hk
      · exact le_trans (h.1 z h') hk
    · rw [if_neg hk]
      refine List.pairwise_cons.mpr ⟨?_, ih h.2⟩
      intro z hz
      rcases mem_insertDescBy key x ys z hz with h' | h'
      · rw [h']; exact le_of_lt (lt_of_not_le hk)
      · exact h.1 z h'

theorem pairwise_sortDescBy {α β : Type} [LinearOrder β] (key : α → β)
    (l : List α) : (sortDescBy key l).Pairwise (fun a b => key b ≤ key a) := by
  induction l with
  | nil => simp [sortDescBy]
  | cons x xs ih => exact pairwise_insertDescBy key x _ ih

theorem length_insertDescBy {α β : Type} [LinearOrder β] (key : α → β) (x : α)
    (l : List α) : (insertDescBy key x l).length = l.length + 1 := by
  induction l with
  | nil => rfl
  | cons y ys ih =>
    simp only [insertDescBy]
    by_cases hk : key y ≤ key x
    · rw [if_pos hk]; rfl
    · rw [if_neg hk]; simp [ih]

theorem length_sortDescBy {α β : Type} [LinearOrder β] (key : α → β)
    (l : List α) : (sortDescBy key l).length = l.length := by
  induction l with
  | nil => rfl
  | cons x xs ih => simp [sortDescBy, length_insertDescBy, ih]

theorem sortDescBy_ne_nil {α β : Type} [LinearOrder β] (key : α → β)
    (x : α) (xs : List α) : sortDescBy key (x :: xs) ≠ [] := by
  intro h
  have := length_sortDescBy key (x :: xs)
  rw [h] at this
  simp at this

/-! ## Lemmas about the context string and the listing construction -/

theorem joinSep_context_eq_specContext (docs : List StoredDoc) :
    ∀ n : Nat, joinSep "\n" ((docs.enumFrom n).map (fun p => contextBlock p.1 p.2)) =
      specContext n docs := by
  induction docs with
  | nil => intro n; rfl
  | cons d ds ih =>
    intro n
    cases ds with
    | nil => rfl
    | cons d2 ds2 =>
      have step := ih (n + 1)
      simp only [List.enumFrom_cons, List.map_cons] at step ⊢
      show contextBlock n d ++ "\n" ++ _ = _
      rw [step]
      rfl

theorem buildContext_eq_specContext (docs : List StoredDoc) :
    buildContext docs = specContext 1 docs :=
  joinSep_context_eq_specContext docs 1

theorem markFirst_id (op : MongoOpM) (p : Nat × StoredDoc) :
    (markFirst op p).id = p.2.id := by
  unfold markFirst
  split <;> rfl

theorem markFirst_isSome_zero (op : MongoOpM) (x : StoredDoc) :
    (markFirst op (0, x)).mongodb_operation.isSome = true := rfl

theorem toDocResponse_op_isSome (d : StoredDoc) :
    (toDocResponse d).mongodb_operation.isSome = false := rfl

theorem markFirst_op_of_ne (op : MongoOpM) (p : Nat × StoredDoc) (h : p.1 ≠ 0) :
    (markFirst op p).mongodb_operation = none := by
  unfold markFirst
  rw [if_neg h]
  rfl

theorem map_id_markFirst (op : MongoOpM) (docs : List StoredDoc) :
    ∀ n : Nat, (((docs.enumFrom n).map (markFirst op)).map (fun r => r.id)) =
      docs.map (fun d => d.id) := by
  induction docs with
  | nil => intro n; rfl
  | cons d ds ih =>
    intro n
    simp only [List.enumFrom_cons, List.map_cons, markFirst_id]
    rw [ih (n + 1)]

theorem countP_markFirst_pos (op : MongoOpM) (docs : List StoredDoc) :
    ∀ n : Nat, n ≠ 0 →
      ((docs.enumFrom n).map (markFirst op)).countP
        (fun r => r.mongodb_operation.isSome) = 0 := by
  induction docs with
  | nil => intro n _; rfl
  | cons d ds ih =>
    intro n hn
    simp only [List.enumFrom_cons, List.map_cons, List.countP_cons]
    rw [markFirst_op_of_ne op (n, d) hn]
    simp only [Option.isSome_none, Bool.false_eq_true, if_false, Nat.add_zero]
    exact ih (n + 1) (Nat.succ_ne_zero n)

theorem rawNums_sample (l : List Rat) (s : String) :
    rawNums ((l.map ShownVal.num) ++ [ShownVal.note s]) = l := by
  induction l with
  | nil => rfl
  | cons x xs ih =>
    simp only [List.map_cons, List.cons_append]
    show x :: rawNums ((xs.map ShownVal.num) ++ [ShownVal.note s]) = x :: xs
    rw [ih]

theorem rawNums_vecSample (v : Vec) : rawNums (vecSample v) = v.take 5 :=
  rawNums_sample (v.take 5) _

theorem docRespShown_toDocResponse (d : StoredDoc) :
    docRespShown (toDocResponse d) = [] := rfl

theorem docsShown_map_toDocResponse {α : Type} (f : α → StoredDoc) (l : List α) :
    docsShown (l.map (fun p => toDocResponse (f p))) = [] := by
  induction l with
  | nil => rfl
  | cons x xs ih =>
    simp only [List.map_cons]
    show docRespShown (toDocResponse (f x)) ++ _ = []
    rw [docRespShown_toDocResponse, ih]
    rfl

theorem docRespShown_markFirst_nilop (op : MongoOpM) (h : op.vecShown = [])
    (p : Nat × StoredDoc) : docRespShown (markFirst op p) = [] := by
  unfold markFirst
  split
  · show opShown (some op) = []
    simp [opShown, h, rawNums]
  · rfl

theorem docsShown_markFirst (op : MongoOpM) (h : op.vecShown = [])
    (docs : List StoredDoc) :
    ∀ n : Nat, docsShown ((docs.enumFrom n).map (markFirst op)) = [] := by
  induction docs with
  | nil => intro n; rfl
  | cons d ds ih =>
    intro n
    simp only [List.enumFrom_cons, List.map_cons]
    show docRespShown (markFirst op (n, d)) ++ _ = []
    rw [docRespShown_markFirst_nilop op h, ih (n + 1)]
    rfl

/-! ## Claims -/

/-- C1, counterexample: against an empty corpus with the vector index
available, `chat_with_documents` retrieves zero documents yet still calls
the Generation Gateway exactly once (the claim says the LLM call count is
zero), returning the LLM's output rather than a fixed "no documents"
answer; only the empty sources list matches the claim. -/
theorem C1_counterexample :
    (chat_with_documents constEmbed score0 llmStub readyEnv emptyStore req5).2.llmCalls = 1 ∧
    ¬ ((chat_with_documents constEmbed score0 llmStub readyEnv emptyStore req5).2.llmCalls = 0) ∧
    chatSources (chat_with_documents constEmbed score0 llmStub readyEnv emptyStore req5) = some [] ∧
    chatAnswer (chat_with_documents constEmbed score0 llmStub readyEnv emptyStore req5) =
      some "LLM OUTPUT" := by
  refine ⟨rfl, by decide, rfl, rfl⟩

/-- C1, amended: for every chat request whose vector retrieval step
returns zero documents, the orchestrator does not short-circuit: it
returns an empty sources list but still invokes the Generation Gateway
exactly once, with the empty context string, and the answer is whatever
the gateway returns. -/
theorem C1_amended (embed : String → Vec) (score : Vec → Vec → Rat)
    (llm : String → String → Option String → String) (env : ProbeEnv)
    (store : VectorStore) (req : ChatRequest)
    (hq : pyStrip req.question ≠ "")
    (hav : (check_vector_index_exists env).1 = true)
    (hemb : ∀ d ∈ store.docs, d.embedding = none) :
    (chat_with_documents embed score llm env store req).2.llmCalls = 1 ∧
    chatSources (chat_with_documents embed score llm env store req) = some [] ∧
    chatAnswer (chat_with_documents embed score llm env store req) =
      some (llm req.question "" req.system_prompt) := by
  have hfil : store.docs.filterMap
      (fun d => d.embedding.map (fun e => (d, score (embed req.question) e))) = [] := by
    rw [List.filterMap_eq_nil_iff]
    intro d hd
    rw [hemb d hd]
    rfl
  have hms : mongoVectorSearch score store (embed req.question)
      ⟨"vector_index", req.max_context_docs * 10, req.max_context_docs⟩ = [] := by
    simp only [mongoVectorSearch, hfil, sortDescBy, List.take_nil]
  have hnp : ¬ ((!(check_vector_index_exists env).1) = true) := by
    rw [hav]
    decide
  have hres : chat_with_documents embed score llm env store req =
      (.ok { question := req.question,
             answer := llm req.question "" req.system_prompt,
             sources := [], model_used := "ollama: phi",
             mongodb_operation := some
               ⟨"aggregate",
                some ⟨"vector_index", req.max_context_docs * 10, req.max_context_docs⟩,
                vecSample (embed req.question), 0⟩ },
       ⟨1, 2, 1⟩) := by
    unfold chat_with_documents
    rw [if_neg hq, if_neg hnp]
    simp only [hms, List.map_nil]
    exact rfl
  rw [hres]
  exact ⟨rfl, rfl, rfl⟩

/-- C1, witness for the amended claim at a concrete input: question
"anything", a ready index, and a corpus whose only document carries no
embedding. -/
theorem C1_witness :
    (pyStrip "anything" ≠ "") ∧
    ((check_vector_index_exists readyEnv).1 = true) ∧
    ((chat_with_documents constEmbed score0 llmStub readyEnv storeNoEmb req5).2.llmCalls = 1 ∧
     chatSources (chat_with_documents constEmbed score0 llmStub readyEnv storeNoEmb req5) = some [] ∧
     chatAnswer (chat_with_documents constEmbed score0 llmStub readyEnv storeNoEmb req5) =
       some (llmStub "anything" "" none)) :=
  ⟨by decide, by decide,
   C1_amended constEmbed score0 llmStub readyEnv storeNoEmb req5
     (by decide) (by decide) (by decide)⟩

/-- C2, counterexample: the corpus holds a document with an embedding
(so the spec's brute-force fallback would return non-empty results), the
probe reports the index absent, yet `semantic_search` fails with 503:
there is no fallback-enabled mode at all. -/
theorem C2_counterexample :
    respStatus (semantic_search constEmbed score0 absentEnv store1 "hello" 10) = some 503 ∧
    store1.docs.countP (fun d => d.embedding.isSome) = 1 := by
  exact ⟨rfl, rfl⟩

/-- C2, amended: vector search is strict-only.  `semantic_search` exposes
no per-call fallback configuration; whenever the probe reports the vector
index unavailable it fails with 503 (`VectorSearchUnavailable`) for every
query and corpus, and the brute-force path is never taken. -/
theorem C2_amended (embed : String → Vec) (score : Vec → Vec → Rat)
    (env : ProbeEnv) (store : VectorStore) (q : String) (k : Nat)
    (hq : pyStrip q ≠ "")
    (habs : (check_vector_index_exists env).1 = false) :
    respStatus (semantic_search embed score env store q k) = some 503 := by
  have h2 : (!(check_vector_index_exists env).1) = true := by
    rw [habs]
    rfl
  unfold semantic_search
  rw [if_neg hq, if_pos h2]
  rfl

/-- C2, witness for the amended claim: query "hello" against an
absent-index environment and a non-empty embedded corpus. -/
theorem C2_witness :
    (pyStrip "hello" ≠ "") ∧
    ((check_vector_index_exists absentEnv).1 = false) ∧
    respStatus (semantic_search constEmbed score0 absentEnv store1 "hello" 10) = some 503 :=
  ⟨by decide, by decide,
   C2_amended constEmbed score0 absentEnv store1 "hello" 10 (by decide) (by decide)⟩

/-- C3, counterexample: with the probe reporting the vector index in
status BUILDING, `check_vector_index_exists` returns available and
`semantic_search` proceeds against the index and returns results — the
claim says a Building probe result must stop the vector operation. -/
theorem C3_counterexample :
    check_vector_index_exists buildingEnv = (true, some "BUILDING") ∧
    respStatus (semantic_search constEmbed score0 buildingEnv store1 "q" 10) = none ∧
    respTotal (semantic_search constEmbed score0 buildingEnv store1 "q" 10) = some 1 := by
  refine ⟨rfl, rfl, rfl⟩

/-- C3, amended: a probe result of Building is treated as Present, not
Absent: whenever an index named `vector_index` is listed, whatever its
status (including BUILDING), the probe reports available and the vector
operation proceeds.  Only when the index is not found (or the probe
fails) does the call stop with a 503 whose message surfaces the probe
status distinctly (the detail embeds "status: ..." with the reported
status, `None` when there was none). -/
theorem C3_amended (embed : String → Vec) (score : Vec → Vec → Rat)
    (store : VectorStore) (q : String) (k : Nat)
    (idxs : List SearchIndexInfo) (info : SearchIndexInfo)
    (hq : pyStrip q ≠ "")
    (hfind : idxs.find? (fun i => i.name == "vector_index") = some info) :
    check_vector_index_exists (.ok idxs) = (true, some info.status) ∧
    respStatus (semantic_search embed score (.ok idxs) store q k) = none ∧
    (∀ env : ProbeEnv, (check_vector_index_exists env).1 = false →
      respDetail (semantic_search embed score env store q k) =
        some (semUnavailableDetail (check_vector_index_exists env).2)) ∧
    (∀ st : Option String, ∃ pre post : String,
      semUnavailableDetail st = pre ++ ("status: " ++ statusShown st) ++ post) := by
  have h1 : check_vector_index_exists (.ok idxs) = (true, some info.status) := by
    simp only [check_vector_index_exists]
    rw [hfind]
  refine ⟨h1, ?_, ?_, ?_⟩
  · have hnp : ¬ ((!(check_vector_index_exists (ProbeEnv.ok idxs)).1) = true) := by
      rw [h1]
      simp
    unfold semantic_search
    rw [if_neg hq, if_neg hnp]
    rfl
  · intro env henv
    have h2 : (!(check_vector_index_exists env).1) = true := by
      rw [henv]
      rfl
    unfold semantic_search
    rw [if_neg hq, if_pos h2]
    rfl
  · intro st
    exact ⟨"MongoDB Vector Search is not available. Vector index vector_index not found or not ready (",
           ")", rfl⟩

/-- C3, witness for the amended claim at the BUILDING status, with the
vector index listed after the `default` full-text index the startup code
also creates. -/
theorem C3_witness :
    (pyStrip "q" ≠ "") ∧
    ([(⟨"default", "READY"⟩ : SearchIndexInfo), ⟨"vector_index", "BUILDING"⟩].find?
        (fun i => i.name == "vector_index") = some ⟨"vector_index", "BUILDING"⟩) ∧
    check_vector_index_exists
        (.ok [(⟨"default", "READY"⟩ : SearchIndexInfo), ⟨"vector_index", "BUILDING"⟩]) =
      (true, some "BUILDING") ∧
    respStatus (semantic_search constEmbed score0
        (.ok [(⟨"default", "READY"⟩ : SearchIndexInfo), ⟨"vector_index", "BUILDING"⟩])
        store1 "q" 10) = none :=
  ⟨by decide, by decide,
   (C3_amended constEmbed score0 store1 "q" 10
     [(⟨"default", "READY"⟩ : SearchIndexInfo), ⟨"vector_index", "BUILDING"⟩]
     ⟨"vector_index", "BUILDING"⟩ (by decide) (by decide)).1,
   (C3_amended constEmbed score0 store1 "q" 10
     [(⟨"default", "READY"⟩ : SearchIndexInfo), ⟨"vector_index", "BUILDING"⟩]
     ⟨"vector_index", "BUILDING"⟩ (by decide) (by decide)).2.1⟩

/-- C5, confirmed: a query that is blank after trimming makes both the
lexical endpoint and the vector endpoint fail with the 400 rejection
before any collaborator is contacted: the embedding model, the store,
and the LLM are all called zero times. -/
theorem C5_blank_rejected (embed : String → Vec) (score : Vec → Vec → Rat)
    (env : ProbeEnv) (store : VectorStore) (k : Nat)
    (lexSearch : String → List (StoredDoc × Rat)) (q : String)
    (hq : pyStrip q = "") :
    semantic_search embed score env store q k =
      (.error ⟨400, "Query parameter q is required"⟩, ⟨0, 0, 0⟩) ∧
    search_documents lexSearch q =
      (.error ⟨400, "Query parameter q is required"⟩, ⟨0, 0, 0⟩) := by
  constructor
  · unfold semantic_search
    rw [if_pos hq]
  · unfold search_documents
    rw [if_pos hq]

/-- C5, witness: the spec's own test inputs, `"   "` (whitespace) against
the lexical endpoint and `""` against the vector endpoint. -/
theorem C5_witness :
    (pyStrip "   " = "") ∧ (pyStrip "" = "") ∧
    semantic_search constEmbed score0 readyEnv store1 "" 10 =
      (.error ⟨400, "Query parameter q is required"⟩, ⟨0, 0, 0⟩) ∧
    search_documents (fun _ => []) "   " =
      (.error ⟨400, "Query parameter q is required"⟩, ⟨0, 0, 0⟩) :=
  ⟨by decide, by decide,
   (C5_blank_rejected constEmbed score0 readyEnv store1 10 (fun _ => []) "" (by decide)).1,
   (C5_blank_rejected constEmbed score0 readyEnv store1 10 (fun _ => []) "   " (by decide)).2⟩

/-- C10, confirmed: every document created via audio ingestion stores a
tag list that ends with `language:{detected_language}` followed by
`audio-transcription`, appended after any caller-supplied tags; with no
caller tags the list is exactly those two tags. -/
theorem C10_audio_tags (embed : String → Vec) (transcribed detected : String)
    (title tags : Option String) :
    (∃ p : List String,
      (create_document_from_audio embed transcribed detected title tags).tags =
        p ++ ["language:" ++ detected, "audio-transcription"]) ∧
    (create_document_from_audio embed transcribed detected title none).tags =
      ["language:" ++ detected, "audio-transcription"] := by
  constructor
  · refine ⟨(match tags with
      | some s => if s = "" then [] else parseTagsCsv s
      | none => []), ?_⟩
    cases tags <;> rfl
  · rfl

/-- C4, counterexample: the `/documents` listing returns no envelope, and
attaches its single telemetry record to the first document item — so an
empty listing carries zero `SearchOperation` records (the claim demands
exactly one for a result count of 0), and with two documents the record
sits on item 0, not on a response envelope. -/
theorem C4_counterexample :
    (get_documents emptyStore).countP (fun r => r.mongodb_operation.isSome) = 0 ∧
    ¬ ((get_documents emptyStore).countP (fun r => r.mongodb_operation.isSome) = 1) ∧
    (get_documents store2).map (fun r => r.mongodb_operation.isSome) = [true, false] := by
  refine ⟨rfl, by decide, rfl⟩

/-- C4, amended: the envelope-returning endpoints (`/search`,
`/search/semantic`) attach exactly one telemetry record to the response
envelope and none to any item; `/documents` returns a bare list and
attaches its one record to the first item only, so the number of attached
records is `min(result count, 1)` — one when the store is non-empty, zero
when it is empty. -/
theorem C4_amended (store : VectorStore) (lexSearch : String → List (StoredDoc × Rat))
    (embed : String → Vec) (score : Vec → Vec → Rat) (env : ProbeEnv)
    (q : String) (k : Nat) (r1 r2 : SearchResponse)
    (h1 : (search_documents lexSearch q).1 = .ok r1)
    (h2 : (semantic_search embed score env store q k).1 = .ok r2) :
    (get_documents store).countP (fun r => r.mongodb_operation.isSome) =
      min store.docs.length 1 ∧
    (r1.mongodb_operation.isSome = true ∧
     r1.results.countP (fun d => d.mongodb_operation.isSome) = 0) ∧
    (r2.mongodb_operation.isSome = true ∧
     r2.results.countP (fun d => d.mongodb_operation.isSome) = 0) := by
  refine ⟨?_, ?_, ?_⟩
  · cases hd : store.docs with
    | nil =>
      unfold get_documents
      rw [hd]
      rfl
    | cons d ds =>
      obtain ⟨x, xs, hx⟩ : ∃ x xs, sortDescBy (fun d : StoredDoc => d.id) (d :: ds) = x :: xs := by
        cases h : sortDescBy (fun d : StoredDoc => d.id) (d :: ds) with
        | nil => exact absurd h (sortDescBy_ne_nil _ d ds)
        | cons x xs => exact ⟨x, xs, rfl⟩
      unfold get_documents
      rw [hd, hx]
      have htake : (x :: xs).take 10 = x :: xs.take 9 := rfl
      simp only [htake, List.enumFrom_cons, List.map_cons, List.countP_cons]
      rw [countP_markFirst_pos _ _ 1 one_ne_zero, markFirst_isSome_zero]
      rw [List.length_cons]
      simp
  · by_cases hq : pyStrip q = ""
    · unfold search_documents at h1
      rw [if_pos hq] at h1
      cases h1
    · unfold search_documents at h1
      rw [if_neg hq] at h1
      have hr : ((lexSearch q).take 10).map (fun p => toDocResponse p.1) = r1.results ∧
          r1.mongodb_operation = some ⟨"aggregate", none, [],
            (((lexSearch q).take 10).map (fun p => toDocResponse p.1)).length⟩ := by
        injection h1 with h
        rw [← h]
        exact ⟨rfl, rfl⟩
      refine ⟨by rw [hr.2]; rfl, ?_⟩
      rw [← hr.1, List.countP_eq_zero]
      intro a ha
      rw [List.mem_map] at ha
      obtain ⟨p, _, hp⟩ := ha
      rw [← hp, toDocResponse_op_isSome]
      decide
  · by_cases hq : pyStrip q = ""
    · unfold semantic_search at h2
      rw [if_pos hq] at h2
      cases h2
    · by_cases hav : (!(check_vector_index_exists env).1) = true
      · unfold semantic_search at h2
        rw [if_neg hq, if_pos hav] at h2
        cases h2
      · unfold semantic_search at h2
        rw [if_neg hq, if_neg hav] at h2
        have hr : (mongoVectorSearch score store (embed q) ⟨"vector_index", k * 10, k⟩).map
              (fun p => toDocResponse p.1) = r2.results ∧
            r2.mongodb_operation = some ⟨"aggregate", some ⟨"vector_index", k * 10, k⟩,
              vecSample (embed q),
              ((mongoVectorSearch score store (embed q) ⟨"vector_index", k * 10, k⟩).map
                (fun p => toDocResponse p.1)).length⟩ := by
          injection h2 with h
          rw [← h]
          exact ⟨rfl, rfl⟩
        refine ⟨by rw [hr.2]; rfl, ?_⟩
        rw [← hr.1, List.countP_eq_zero]
        intro a ha
        rw [List.mem_map] at ha
        obtain ⟨p, _, hp⟩ := ha
        rw [← hp, toDocResponse_op_isSome]
        decide

/-- C4, witness for the amended claim at concrete inputs: a one-document
store, a stub lexical backend, and a ready index. -/
theorem C4_witness :
    (get_documents store1).countP (fun r => r.mongodb_operation.isSome) =
      min store1.docs.length 1 :=
  (C4_amended store1 (fun _ => [(docA, (1 : Rat))]) constEmbed score0 readyEnv
    "hello" 10
    { query := "hello", results := [toDocResponse docA], total := 1,
      mongodb_query := some ⟨none, []⟩,
      search_type := "full_text_search",
      mongodb_operation := some ⟨"aggregate", none, [], 1⟩ }
    { query := "hello", results := [toDocResponse docA], total := 1,
      mongodb_query := some ⟨some ⟨"vector_index", 100, 10⟩, vecSample [1, 0]⟩,
      search_type := "vector",
      mongodb_operation := some ⟨"aggregate", some ⟨"vector_index", 100, 10⟩,
        vecSample [1, 0], 1⟩ }
    rfl rfl).1

/-- C6, confirmed: for every chat request (with at least one retrieved
document, per the claim), the context string handed to the Generation
Gateway is exactly the spec's format: the concatenation, in
similarity-ranked order, of blocks `Document {rank} (Title: {title}):`,
newline, body, newline, with consecutive blocks separated by a single
blank line and ranks 1-based in retrieval order. -/
theorem C6_context_format (embed : String → Vec) (score : Vec → Vec → Rat)
    (llm : String → String → Option String → String) (env : ProbeEnv)
    (store : VectorStore) (req : ChatRequest)
    (hq : pyStrip req.question ≠ "")
    (hav : (check_vector_index_exists env).1 = true)
    (hne : retrievedFor embed score store req.question req.max_context_docs ≠ []) :
    chatAnswer (chat_with_documents embed score llm env store req) =
      some (llm req.question
        (specContext 1 (retrievedFor embed score store req.question req.max_context_docs))
        req.system_prompt) := by
  have hnp : ¬ ((!(check_vector_index_exists env).1) = true) := by
    rw [hav]
    decide
  unfold chat_with_documents
  rw [if_neg hq, if_neg hnp]
  show some (llm req.question (buildContext _) req.system_prompt) = _
  rw [buildContext_eq_specContext]
  rfl

/-- C6, witness: one retrieved document; the echoing LLM stand-in makes
the context visible as the answer. -/
theorem C6_witness :
    (pyStrip "anything" ≠ "") ∧
    ((check_vector_index_exists readyEnv).1 = true) ∧
    (retrievedFor constEmbed score0 store1 "anything" 5 ≠ []) ∧
    chatAnswer (chat_with_documents constEmbed score0 llmEcho readyEnv store1 req5) =
      some (llmEcho "anything"
        (specContext 1 (retrievedFor constEmbed score0 store1 "anything" 5)) none) :=
  ⟨by decide, by decide, by decide,
   C6_context_format constEmbed score0 llmEcho readyEnv store1 req5
     (by decide) (by decide) (by decide)⟩

/-- C7, confirmed: every executed native vector search — the standalone
semantic endpoint with result count `k` and the chat retrieval with
result count `max_context_docs` — records a `$vectorSearch` stage with
`numCandidates = k * 10` and `limit = k`; and the store's native
execution returns at most `limit` results whose scores are ordered
descending. -/
theorem C7_query_shape (embed : String → Vec) (score : Vec → Vec → Rat)
    (llm : String → String → Option String → String) (env : ProbeEnv)
    (store : VectorStore) (q : String) (k : Nat) (req : ChatRequest)
    (hq : pyStrip q ≠ "")
    (hq2 : pyStrip req.question ≠ "")
    (hav : (check_vector_index_exists env).1 = true) :
    searchOpQuery (semantic_search embed score env store q k) =
      some ⟨"vector_index", k * 10, k⟩ ∧
    chatOpQuery (chat_with_documents embed score llm env store req) =
      some ⟨"vector_index", req.max_context_docs * 10, req.max_context_docs⟩ ∧
    (∀ (v : Vec) (qr : VSQuery),
      ((mongoVectorSearch score store v qr).map Prod.snd).Pairwise (fun a b => b ≤ a) ∧
      (mongoVectorSearch score store v qr).length ≤ qr.limit) := by
  have hnp : ¬ ((!(check_vector_index_exists env).1) = true) := by
    rw [hav]
    decide
  refine ⟨?_, ?_, ?_⟩
  · unfold semantic_search
    rw [if_neg hq, if_neg hnp]
    rfl
  · unfold chat_with_documents
    rw [if_neg hq2, if_neg hnp]
    rfl
  · intro v qr
    constructor
    · refine List.pairwise_map.mpr ?_
      exact List.Pairwise.sublist (List.take_sublist _ _)
        (pairwise_sortDescBy (fun p : StoredDoc × Rat => p.2) _)
    · exact List.length_take_le _ _

/-- C7, witness at concrete inputs: `k = 3` gives `numCandidates = 30`. -/
theorem C7_witness :
    (pyStrip "hello" ≠ "") ∧ (pyStrip "anything" ≠ "") ∧
    ((check_vector_index_exists readyEnv).1 = true) ∧
    searchOpQuery (semantic_search constEmbed score0 readyEnv store2 "hello" 3) =
      some ⟨"vector_index", 30, 3⟩ ∧
    (mongoVectorSearch score0 store2 [1, 0] ⟨"vector_index", 30, 3⟩).length ≤ 3 :=
  ⟨by decide, by decide, by decide,
   (C7_query_shape constEmbed score0 llmStub readyEnv store2 "hello" 3 req5
     (by decide) (by decide) (by decide)).1,
   ((C7_query_shape constEmbed score0 llmStub readyEnv store2 "hello" 3 req5
     (by decide) (by decide) (by decide)).2.2 [1, 0] ⟨"vector_index", 30, 3⟩).2⟩

/-- C8, confirmed: no endpoint serializes a raw embedding vector in full.
`DocumentResponse` carries only `id`, `title`, `body`, `tags` (it has no
embedding field), and every raw embedding value appearing anywhere in any
response comes from a bounded 5-value display sample: the semantic
endpoint exposes the sample twice (displayed query dict plus telemetry,
at most 10 values, each from the first 5 of the query embedding), chat
and document creation expose it once (at most 5 values), audio-document
creation renders the embedding as a size note (zero values), and the
listing and lexical search expose none. -/
theorem C8_no_full_embedding (embed : String → Vec) (score : Vec → Vec → Rat)
    (llm : String → String → Option String → String) (env : ProbeEnv)
    (store : VectorStore) (q : String) (k : Nat) (req : ChatRequest)
    (lexSearch : String → List (StoredDoc × Rat)) (newId : Nat) (docIn : DocumentIn)
    (transcribed detected : String) (titleIn tagsIn : Option String) :
    (searchShown (semantic_search embed score env store q k)).length ≤ 10 ∧
    (∀ x ∈ searchShown (semantic_search embed score env store q k),
      x ∈ (embed q).take 5) ∧
    (chatShown (chat_with_documents embed score llm env store req)).length ≤ 5 ∧
    (∀ x ∈ chatShown (chat_with_documents embed score llm env store req),
      x ∈ (embed req.question).take 5) ∧
    docsShown (get_documents store) = [] ∧
    searchShown (search_documents lexSearch q) = [] ∧
    docRespShown (create_document embed newId docIn).1 = (embed (embedTextOf docIn)).take 5 ∧
    ((embed (embedTextOf docIn)).take 5).length ≤ 5 ∧
    docRespShown
      (create_document_from_audio_response embed newId transcribed detected titleIn tagsIn) = [] := by
  have hsem : searchShown (semantic_search embed score env store q k) = [] ∨
      searchShown (semantic_search embed score env store q k) =
        (embed q).take 5 ++ (embed q).take 5 := by
    by_cases hq : pyStrip q = ""
    · left
      unfold semantic_search
      rw [if_pos hq]
      rfl
    · by_cases hav : (!(check_vector_index_exists env).1) = true
      · left
        unfold semantic_search
        rw [if_neg hq, if_pos hav]
        rfl
      · right
        unfold semantic_search
        rw [if_neg hq, if_neg hav]
        show (queryShown (some ⟨some _, vecSample (embed q)⟩) ++
          opShown (some ⟨"aggregate", _, vecSample (embed q), _⟩) ++
          docsShown ((mongoVectorSearch score store (embed q) _).map
            (fun p => toDocResponse p.1))) = _
        rw [docsShown_map_toDocResponse (fun p : StoredDoc × Rat => p.1)]
        show (rawNums (vecSample (embed q)) ++ rawNums (vecSample (embed q)) ++ []) = _
        rw [List.append_nil, rawNums_vecSample]
  have hchat : chatShown (chat_with_documents embed score llm env store req) = [] ∨
      chatShown (chat_with_documents embed score llm env store req) =
        (embed req.question).take 5 := by
    by_cases hq : pyStrip req.question = ""
    · left
      unfold chat_with_documents
      rw [if_pos hq]
      rfl
    · by_cases hav : (!(check_vector_index_exists env).1) = true
      · left
        unfold chat_with_documents
        rw [if_neg hq, if_pos hav]
        rfl
      · right
        unfold chat_with_documents
        rw [if_neg hq, if_neg hav]
        show (opShown (some ⟨"aggregate", _, vecSample (embed req.question), _⟩) ++
          docsShown (((mongoVectorSearch score store (embed req.question) _).map Prod.fst).map
            toDocResponse)) = _
        have hd : docsShown (((mongoVectorSearch score store (embed req.question)
            ⟨"vector_index", req.max_context_docs * 10, req.max_context_docs⟩).map
            Prod.fst).map toDocResponse) = [] := by
          rw [show (((mongoVectorSearch score store (embed req.question)
            ⟨"vector_index", req.max_context_docs * 10, req.max_context_docs⟩).map
            Prod.fst).map toDocResponse) =
              ((mongoVectorSearch score store (embed req.question)
            ⟨"vector_index", req.max_context_docs * 10, req.max_context_docs⟩).map
            (fun p => toDocResponse (Prod.fst p))) from by rw [List.map_map]; rfl]
          exact docsShown_map_toDocResponse Prod.fst _
        rw [hd]
        show (rawNums (vecSample (embed req.question)) ++ []) = _
        rw [List.append_nil, rawNums_vecSample]
  refine ⟨?_, ?_, ?_, ?_, ?_, ?_, ?_, ?_, ?_⟩
  · rcases hsem with h | h
    · rw [h]
      exact Nat.zero_le 10
    · rw [h, List.length_append]
      have h5 := List.length_take_le 5 (embed q)
      omega
  · intro x hx
    rcases hsem with h | h
    · rw [h] at hx
      exact absurd hx (List.not_mem_nil x)
    · rw [h] at hx
      rcases List.mem_append.mp hx with h2 | h2
      · exact h2
      · exact h2
  · rcases hchat with h | h
    · rw [h]
      exact Nat.zero_le 5
    · rw [h]
      exact List.length_take_le _ _
  · intro x hx
    rcases hchat with h | h
    · rw [h] at hx
      exact absurd hx (List.not_mem_nil x)
    · rw [h] at hx
      exact hx
  · unfold get_documents
    exact docsShown_markFirst _ rfl _ 0
  · by_cases hq : pyStrip q = ""
    · unfold search_documents
      rw [if_pos hq]
      rfl
    · unfold search_documents
      rw [if_neg hq]
      show queryShown (some ⟨none, []⟩) ++ opShown (some ⟨"aggregate", none, [], _⟩) ++
        docsShown (((lexSearch q).take 10).map (fun p => toDocResponse p.1)) = []
      rw [docsShown_map_toDocResponse (fun p : StoredDoc × Rat => p.1)]
      rfl
  · unfold create_document
    show opShown (some ⟨"insertOne", none, _, 1⟩) = _
    show rawNums (((embed (embedTextOf docIn)).take 5).map ShownVal.num ++ [ShownVal.note _]) = _
    exact rawNums_sample _ _
  · exact List.length_take_le _ _
  · rfl

/-- C9, confirmed: the `/documents` listing returns at most 10 documents,
ordered by descending document id — ids are assigned in insertion order,
so the most recently inserted come first — for every corpus state. -/
theorem C9_listing_order (store : VectorStore) :
    (get_documents store).length ≤ 10 ∧
    ((get_documents store).map (fun r => r.id)).Pairwise (fun a b => b ≤ a) := by
  constructor
  · unfold get_documents
    rw [List.length_map, List.enumFrom_length]
    exact List.length_take_le 10 _
  · unfold get_documents
    rw [map_id_markFirst]
    refine List.pairwise_map.mpr ?_
    exact List.Pairwise.sublist (List.take_sublist _ _)
      (pairwise_sortDescBy (fun d : StoredDoc => d.id) store.docs)

end AMS
